import Mathlib

/-!
Verification of the fx-trading-web dashboard client (ProTraderGold page and
its helpers), as a shallow embedding in Lean.

Numbers flowing through the client (prices, scores, position sizes) are
modelled as rationals; JavaScript strings are Lean strings.  Fallible
JavaScript operations (a property access on a possibly-undefined value)
are modelled in `Except JsError`.  The models below are translated from the
page component: its pure helpers (`convertPipToPrice`,
`getLiquidityGrabLevel`), its response handlers (`enterTrade`, `exitTrade`),
and its state transitions (the `useState` fields together with the fetch
callbacks and click handlers), with the JSX section guards reproduced as
boolean functions of the state.
-/

set_option allowUnsafeReducibility true
attribute [local semireducible] Rat.add Rat.mul Rat.inv Rat.sub

/-- Runtime failure of a JavaScript property access on `undefined`. -/
inductive JsError where
  | typeError
deriving DecidableEq, Repr

instance {ε α : Type} [DecidableEq ε] [DecidableEq α] : DecidableEq (Except ε α) := fun x y =>
  match x, y with
  | Except.ok a, Except.ok b =>
    if h : a = b then isTrue (by rw [h]) else isFalse (by intro he; cases he; exact h rfl)
  | Except.ok _, Except.error _ => isFalse (by intro h; cases h)
  | Except.error _, Except.ok _ => isFalse (by intro h; cases h)
  | Except.error e, Except.error f =>
    if h : e = f then isTrue (by rw [h]) else isFalse (by intro he; cases he; exact h rfl)

/-! ### JavaScript string primitives used by the page -/

/-- Numeric value of a list of decimal digit characters. -/
def digitsToNat (ds : List Char) : ℕ :=
  ds.foldl (fun a c => a * 10 + (c.toNat - '0'.toNat)) 0

/-- Model of JavaScript `parseFloat` on the decimal grammar the page feeds it
(optional whitespace, optional sign, digits with an optional fraction; the
remainder of the string is ignored).  `none` stands for `NaN`.  Exponent
forms never occur in the payload strings handled here and are not modelled. -/
def parseFloat (s : String) : Option ℚ :=
  let cs := s.data.dropWhile Char.isWhitespace
  let signed : Bool × List Char :=
    match cs with
    | '-' :: rest => (true, rest)
    | '+' :: rest => (false, rest)
    | _ => (false, cs)
  let intDs := signed.2.takeWhile Char.isDigit
  let afterInt := signed.2.dropWhile Char.isDigit
  let fracDs : List Char :=
    match afterInt with
    | '.' :: r2 => r2.takeWhile Char.isDigit
    | _ => []
  if intDs.isEmpty ∧ fracDs.isEmpty then none
  else
    let mag : ℚ := (digitsToNat intDs : ℚ) + (digitsToNat fracDs : ℚ) / (10 ^ fracDs.length)
    some (if signed.1 then -mag else mag)

/-- Removal of the first occurrence of the character in a character list. -/
def removeFirstChar (target : Char) : List Char → List Char
  | [] => []
  | c :: rest => if c = target then rest else c :: removeFirstChar target rest

/-- Model of `s.replace('$', '')`: with a string pattern, JavaScript
`String.prototype.replace` substitutes only the first occurrence. -/
def jsReplaceDollar (s : String) : String :=
  String.mk (removeFirstChar '$' s.data)

/-- Two-digit zero-padded rendering of a natural number below 100. -/
def pad2 (n : ℕ) : String :=
  if n < 10 then "0" ++ toString n else toString n

/-- Rendering of a count of cents as a two-decimal string. -/
def fixed2OfNat (n : ℕ) : String :=
  toString (n / 100) ++ "." ++ pad2 (n % 100)

/-- Model of JavaScript `x.toFixed(2)`: round the magnitude to the nearest
hundredth, ties toward the larger value, and render with two decimals. -/
def toFixed2 (q : ℚ) : String :=
  if q < 0 then "-" ++ fixed2OfNat ((-q * 100 + 1 / 2).floor.toNat)
  else fixed2OfNat ((q * 100 + 1 / 2).floor.toNat)

/-! ### Confluences and the pip/price conversion engine -/

/-- One confluence entry of a setup payload.  The `description` field is
optional, matching a backend payload in which it may be absent. -/
structure Confluence where
  type : String
  score : ℚ
  description : Option String
deriving DecidableEq, Repr

/-- First match of the regular expression `\$(\d+(?:\.\d+)?)` in a character
list: the captured group (digits with an optional fraction) of the first
position where a dollar sign is followed by at least one digit. -/
def scanDollarNumber : List Char → Option (List Char)
  | [] => none
  | '$' :: rest =>
    let intDs := rest.takeWhile Char.isDigit
    if intDs.isEmpty then scanDollarNumber rest
    else
      match rest.dropWhile Char.isDigit with
      | '.' :: r3 =>
        let fr := r3.takeWhile Char.isDigit
        if fr.isEmpty then some intDs else some (intDs ++ '.' :: fr)
      | _ => some intDs
  | _ :: rest => scanDollarNumber rest

/-- `description.match(/\$(\d+(?:\.\d+)?)/)` followed by `parseFloat` of the
captured group; `none` when the regular expression does not match. -/
def firstDollarNumber (s : String) : Option ℚ :=
  match scanDollarNumber s.data with
  | none => none
  | some ds => parseFloat (String.mk ds)

/-- `getLiquidityGrabLevel` (page component, lines 189–198): find the first
confluence of type `LIQUIDITY_GRAB` and extract the first dollar-formatted
number from its description.  Accessing `.match` on an absent description
throws a `TypeError`, modelled as `Except.error`. -/
def getLiquidityGrabLevel (confluences : Option (List Confluence)) :
    Except JsError (Option ℚ) :=
  match confluences with
  | none => Except.ok none
  | some cs =>
    match cs.find? (fun c => c.type = "LIQUIDITY_GRAB") with
    | none => Except.ok none
    | some lg =>
      match lg.description with
      | none => Except.error JsError.typeError
      | some d => Except.ok (firstDollarNumber d)

/-- `convertPipToPrice` (page component, lines 201–216): parse a pip offset
from the string, look up the liquidity-grab anchor, and return the anchor
plus offset÷10 formatted to two decimals; fall through to the raw string on
an empty input, a non-numeric input, or a missing (or zero, since `0` is
falsy) anchor. -/
def convertPipToPrice (confluences : Option (List Confluence)) (pipString : String) :
    Except JsError String :=
  if pipString = "" then Except.ok pipString
  else
    match parseFloat (jsReplaceDollar pipString) with
    | none => Except.ok pipString
    | some pipValue =>
      match getLiquidityGrabLevel confluences with
      | Except.error e => Except.error e
      | Except.ok none => Except.ok pipString
      | Except.ok (some basePrice) =>
        if basePrice = 0 then Except.ok pipString
        else Except.ok ("$" ++ toFixed2 (basePrice + pipValue / 10))

/-- `true` exactly on a normal (non-throwing) result. -/
def jsOk {α : Type} : Except JsError α → Bool
  | Except.ok _ => true
  | Except.error _ => false

/-! ### Trade-management alerts and their rendering -/

/-- One entry of `TradeStatus.alerts`. -/
structure Alert where
  priority : String
  title : String
  message : String
  action : Option String
deriving DecidableEq, Repr

/-- Border/background classes chosen per alert (page component, lines
334–338): priority selects only styling. -/
def alertStyle (a : Alert) : String :=
  if a.priority = "HIGH" then "bg-red-900 border-red-500"
  else if a.priority = "MEDIUM" then "bg-yellow-900 border-yellow-500"
  else "bg-blue-900 border-blue-500"

/-- The rendered alert list (page component, lines 330–347):
`tradeStatus.alerts.map(...)` renders one styled box per alert, in the
order the list arrived. -/
def renderAlerts (alerts : List Alert) : List (Alert × String) :=
  alerts.map (fun a => (a, alertStyle a))

/-- Modelled from the spec: the Alert Prioritizer ordering the spec
describes — HIGH before MEDIUM before LOW, stable within each priority
group.  Stated only for comparison with `renderAlerts`; no such function
exists in the source. -/
def specPrioritizedAlerts (alerts : List Alert) : List Alert :=
  alerts.filter (fun a => a.priority = "HIGH") ++
    alerts.filter (fun a => a.priority = "MEDIUM") ++
      alerts.filter (fun a => a.priority ≠ "HIGH" ∧ a.priority ≠ "MEDIUM")

/-! ### Trade status, offered actions, and mutation requests -/

/-- The trade-status payload fields the component reads. -/
structure TradeStatusRecord where
  in_trade : Bool
  position_size : ℚ
  entry_price : ℚ
  current_price : ℚ
  stop_loss : ℚ
  take_profit_1 : ℚ
  take_profit_2 : ℚ
  alerts : List Alert
deriving DecidableEq, Repr

/-- The three operator actions of the trade-monitoring section. -/
inductive TradeAction where
  | addMore
  | partialTakeProfit
  | closeTrade
deriving DecidableEq, Repr

/-- Action buttons rendered in the trade-monitoring section (page
component, lines 350–379): add-more only at `position_size === 50`,
the 50% take-profit exit only at `position_size === 100`, and the
close-trade button always. -/
def offeredActions (ts : TradeStatusRecord) : List TradeAction :=
  (if ts.position_size = 50 then [TradeAction.addMore] else []) ++
    (if ts.position_size = 100 then [TradeAction.partialTakeProfit] else []) ++
      [TradeAction.closeTrade]

/-- Body of a `POST /exit-trade` request (page component, lines 121–125). -/
structure ExitRequest where
  exit_price : ℚ
  position_size : ℚ
  reason : String
deriving DecidableEq, Repr

/-- The request the `exitTrade` helper submits for its arguments. -/
def exitTradeRequest (exitPrice : ℚ) (positionSize : ℚ) (reason : String) : ExitRequest :=
  { exit_price := exitPrice, position_size := positionSize, reason := reason }

/-- The close-trade button click (line 374):
`exitTrade(current_price, tradeStatus.position_size, "Manual exit")`. -/
def closeTradeClick (currentPrice : ℚ) (ts : TradeStatusRecord) : ExitRequest :=
  exitTradeRequest currentPrice ts.position_size "Manual exit"

/-- The 50% take-profit button click (line 367):
`exitTrade(current_price, 50, "Partial profit taking")`. -/
def takeProfitHalfClick (currentPrice : ℚ) : ExitRequest :=
  exitTradeRequest currentPrice 50 "Partial profit taking"

/-- Body of a `POST /enter-trade` request. -/
structure EnterRequest where
  entry_price : ℚ
  position_size : ℚ
  stop_loss : ℚ
  take_profit_1 : ℚ
  take_profit_2 : ℚ
  trade_direction : String
deriving DecidableEq, Repr

/-- The editable entry form held in `entryFormData`. -/
structure EntryFormData where
  entry_price : ℚ
  position_size : ℚ
  stop_loss : ℚ
  take_profit_1 : ℚ
  take_profit_2 : ℚ
deriving DecidableEq, Repr

/-- The confirm-entry button of the modal (page component, lines 926–933):
the request copies the form fields and sets `trade_direction: "LONG"`
unconditionally. -/
def confirmEntryClick (form : EntryFormData) : EnterRequest :=
  { entry_price := form.entry_price
    position_size := form.position_size
    stop_loss := form.stop_loss
    take_profit_1 := form.take_profit_1
    take_profit_2 := form.take_profit_2
    trade_direction := "LONG" }

/-! ### Mutation response handling (enterTrade / exitTrade) -/

/-- Backend response to `POST /enter-trade`. -/
structure EnterTradeResult where
  success : Bool
  error : Option String
deriving DecidableEq, Repr

/-- Backend response to `POST /exit-trade`. -/
structure ExitTradeResult where
  success : Bool
  message : String
  pnl : ℚ
  pnl_pct : ℚ
deriving DecidableEq, Repr

/-- Observable effects of handling a mutation response: the `alert(...)`
text shown (if any), whether the entry modal is closed, and which
re-fetches are triggered.  The handlers touch no other local state. -/
structure MutationEffects where
  alertText : Option String
  closeModal : Bool
  refetchTradeStatus : Bool
  refetchSetup : Bool
deriving DecidableEq, Repr

/-- JavaScript string coercion of a possibly-undefined value, as produced
by `'...' + result.error`. -/
def jsStringOf : Option String → String
  | some s => s
  | none => "undefined"

/-- JavaScript number-to-string coercion, abstracted by the rational
`toString`; the exit-success alert interpolates `result.pnl` this way. -/
def jsNumToString (q : ℚ) : String :=
  toString q

/-- `enterTrade` response handling (page component, lines 102–108): on
success close the modal and re-fetch the trade status; otherwise show
`alert('Failed to enter trade: ' + result.error)` and change nothing. -/
def enterTradeHandleResult (result : EnterTradeResult) : MutationEffects :=
  if result.success then
    { alertText := none, closeModal := true, refetchTradeStatus := true, refetchSetup := false }
  else
    { alertText := some ("Failed to enter trade: " ++ jsStringOf result.error)
      closeModal := false, refetchTradeStatus := false, refetchSetup := false }

/-- `exitTrade` response handling (page component, lines 127–132): on
success show the P&L alert and re-fetch trade status and setup; there is
no branch for `success: false`, so a rejected exit produces no effect. -/
def exitTradeHandleResult (result : ExitTradeResult) : MutationEffects :=
  if result.success then
    { alertText := some (result.message ++ "\nP&L: $" ++ jsNumToString result.pnl ++
        " (" ++ jsNumToString result.pnl_pct ++ "%)")
      closeModal := false, refetchTradeStatus := true, refetchSetup := true }
  else
    { alertText := none, closeModal := false, refetchTradeStatus := false, refetchSetup := false }

/-! ### The ProTraderGold component state machine

`V` abstracts the opaque per-direction setup payload (`data.bullish`,
`data.bearish`); the component never inspects it before rendering, so the
state machine is parametric in it. -/

/-- The operator-selected trader direction. -/
inductive Trader where
  | bullish
  | bearish
deriving DecidableEq, Repr

/-- The `useState` fields of the component that the fetch callbacks and
the dual-trader click handlers read or write (page component, lines
56–63).  Modal-local state (`showEnterTradeModal`, `entryFormData`) is
modelled separately by `MutationEffects` and `EntryFormData`. -/
structure ProTraderState (V : Type) where
  setupData : Option V
  bullishData : Option V
  bearishData : Option V
  selectedTrader : Trader
  tradeStatus : Option TradeStatusRecord
  loading : Bool
  error : String
deriving DecidableEq, Repr

/-- Initial state (page component, lines 57–63): everything empty,
`selectedTrader` defaulted to `'bullish'`, `loading` true. -/
def initialState {V : Type} : ProTraderState V :=
  { setupData := none
    bullishData := none
    bearishData := none
    selectedTrader := Trader.bullish
    tradeStatus := none
    loading := true
    error := "" }

/-- Completion events the component reacts to: resolution of a
`fetchSetup` or `fetchTradeStatus` call, or a click on one of the two
trader cards. -/
inductive ComponentEvent (V : Type) where
  | fetchSetupSuccess (bullish bearish : V)
  | fetchSetupFailure (msg : String)
  | fetchTradeStatusSuccess (ts : TradeStatusRecord)
  | fetchTradeStatusFailure
  | clickBullish
  | clickBearish

/-- The `useEffect` on `[selectedTrader, bullishData, bearishData]` (page
component, lines 154–158): when both directional payloads are present,
`setupData` is set to the selected one. -/
def syncSetupData {V : Type} (st : ProTraderState V) : ProTraderState V :=
  match st.bullishData, st.bearishData with
  | some b, some s =>
    { st with setupData := some (if st.selectedTrader = Trader.bullish then b else s) }
  | _, _ => st

/-- One component transition.  `fetchSetup` success (lines 73–81) stores
both payloads, clears the error and clears `loading`; its failure stores
the error message.  `fetchTradeStatus` success (line 89) overwrites the
trade status; its failure only logs.  The trader-card clicks (lines
241–244, 262–265) set the selection and `setupData` directly.  The data
sync effect runs after the handlers whose writes re-trigger it. -/
def step {V : Type} (st : ProTraderState V) : ComponentEvent V → ProTraderState V
  | ComponentEvent.fetchSetupSuccess b s =>
    syncSetupData
      { st with
        bullishData := some b
        bearishData := some s
        error := ""
        loading := false }
  | ComponentEvent.fetchSetupFailure msg =>
    { st with error := msg, loading := false }
  | ComponentEvent.fetchTradeStatusSuccess ts =>
    { st with tradeStatus := some ts }
  | ComponentEvent.fetchTradeStatusFailure => st
  | ComponentEvent.clickBullish =>
    syncSetupData { st with selectedTrader := Trader.bullish, setupData := st.bullishData }
  | ComponentEvent.clickBearish =>
    syncSetupData { st with selectedTrader := Trader.bearish, setupData := st.bearishData }

/-- State after a sequence of events. -/
def run {V : Type} (st : ProTraderState V) (events : List (ComponentEvent V)) :
    ProTraderState V :=
  events.foldl step st

/-- State after a sequence of events, each tagged with the dispatch index
of the request it completes.  The component keeps no sequence token, so
the tag is ignored; this is the faithful model of overlapping polls. -/
def runTagged {V : Type} (st : ProTraderState V) (events : List (ℕ × ComponentEvent V)) :
    ProTraderState V :=
  events.foldl (fun s e => step s e.2) st

/-- The bullish payload of the last `fetchSetup` success in the event
list, in completion order, defaulting to the given initial content. -/
def completionOrderBullish {V : Type} (init : Option V)
    (events : List (ℕ × ComponentEvent V)) : Option V :=
  events.foldl
    (fun acc e =>
      match e.2 with
      | ComponentEvent.fetchSetupSuccess b _ => some b
      | _ => acc)
    init

/-- Modelled from the spec: the bullish payload of the completed
`fetchSetup` success carrying the greatest dispatch tag — the value the
claimed staleness guard would keep.  No such guard exists in the source. -/
def latestDispatchBullish {V : Type} (events : List (ℕ × ComponentEvent V)) :
    Option (ℕ × V) :=
  events.foldl
    (fun acc e =>
      match e.2 with
      | ComponentEvent.fetchSetupSuccess b _ =>
        match acc with
        | none => some (e.1, b)
        | some (t, b0) => if e.1 > t then some (e.1, b) else some (t, b0)
      | _ => acc)
    none

/-- The page-level view selected by the early returns of the render
function (page component, lines 160–183): the loading screen, the
full-screen failure view (shown whenever `error` is truthy or
`setupData` is absent), or the dashboard over the selected setup. -/
inductive TopView (V : Type) where
  | loadingScreen
  | failedToLoad (error : String)
  | dashboard (setupData : V)
deriving DecidableEq, Repr

/-- `renderTop` mirrors `if (loading) ... if (error || !setupData) ...`. -/
def renderTop {V : Type} (st : ProTraderState V) : TopView V :=
  if st.loading then TopView.loadingScreen
  else if st.error = "" then
    match st.setupData with
    | none => TopView.failedToLoad st.error
    | some d => TopView.dashboard d
  else TopView.failedToLoad st.error

/-- `const inTrade = tradeStatus?.in_trade || false` (line 186). -/
def inTrade {V : Type} (st : ProTraderState V) : Bool :=
  match st.tradeStatus with
  | some ts => ts.in_trade
  | none => false

/-- Guard of the dual-trader card grid (line 237):
`!inTrade && bullishData && bearishData`. -/
def showsDualSelector {V : Type} (st : ProTraderState V) : Bool :=
  !inTrade st && st.bullishData.isSome && st.bearishData.isSome

/-- Guard of the trade-monitoring section (line 284): `inTrade && tradeStatus`. -/
def showsTradeMonitoring {V : Type} (st : ProTraderState V) : Bool :=
  inTrade st && st.tradeStatus.isSome

/-- Guard of the setup-plan section (line 384): `!inTrade`. -/
def showsSetupPlan {V : Type} (st : ProTraderState V) : Bool :=
  !inTrade st

/-- The two fetches of the mount effect and of every interval tick. -/
inductive FetchKind where
  | fetchSetup
  | fetchTradeStatus
deriving DecidableEq, Repr

/-- The body of the `setInterval` callback (page component, lines
146–149): every tick unconditionally starts both fetches. -/
def intervalCallback : List FetchKind :=
  [FetchKind.fetchSetup, FetchKind.fetchTradeStatus]

/-- The fetches started by the first `n` interval ticks.  The interval is
registered once on mount and cleared only by the unmount cleanup (line
150); no fetch outcome is consulted, so the schedule is a function of the
tick count alone. -/
def tickSchedule : ℕ → List FetchKind
  | 0 => []
  | n + 1 => tickSchedule n ++ intervalCallback

/-! ### Unguarded field accesses in other render paths

Beyond `getLiquidityGrabLevel`, some render and handler code reads nested
optional fields without optional chaining; these accesses are embedded
here so the crashes on absent fields can be exhibited exactly. -/

/-- Replacement of the first occurrence of a character in a character list. -/
def replaceFirstChar (target repl : Char) : List Char → List Char
  | [] => []
  | c :: rest => if c = target then repl :: rest else c :: replaceFirstChar target repl rest

/-- Model of `s.replace('_', ' ')`: a string pattern substitutes only the
first occurrence. -/
def jsReplaceUnderscore (s : String) : String :=
  String.mk (replaceFirstChar '_' ' ' s.data)

/-- The strength badge of the GoldPage signal section (the simple-signal
page, line 292): `signal.signal_strength.replace('_', ' ')` with no guard
on the field — a signal arriving without `signal_strength` throws a
TypeError. -/
def signalStrengthBadge (signal_strength : Option String) : Except JsError String :=
  match signal_strength with
  | none => Except.error JsError.typeError
  | some s => Except.ok (jsReplaceUnderscore s)

/-- The fields of `entry_timing.early_entry` that the embedded accesses
read. -/
structure EarlyEntryRecord where
  available : Bool
  stop_loss : Option String
deriving DecidableEq, Repr

/-- The early-entry panel of the entry-timing section (page component,
line 576) reads `step.entry_timing.early_entry.available` with no guard
on `early_entry` itself — an `entry_timing` without it throws. -/
def entryTimingEarlyAvailable (early_entry : Option EarlyEntryRecord) :
    Except JsError Bool :=
  match early_entry with
  | none => Except.error JsError.typeError
  | some ee => Except.ok ee.available

/-- The stop-loss computation of the early-entry click handler (page
component, line 597):
`parseFloat(step.entry_timing.early_entry.stop_loss.replace('$', ''))` —
calling `.replace` on an absent `stop_loss` string throws. -/
def earlyEntryStopLossParse (ee : EarlyEntryRecord) : Except JsError (Option ℚ) :=
  match ee.stop_loss with
  | none => Except.error JsError.typeError
  | some s => Except.ok (parseFloat (jsReplaceDollar s))

/-! ### Helper lemmas -/

theorem syncSetupData_selectedTrader {V : Type} (st : ProTraderState V) :
    (syncSetupData st).selectedTrader = st.selectedTrader := by
  unfold syncSetupData
  cases hb : st.bullishData <;> cases hs : st.bearishData <;> simp [hb, hs]

theorem syncSetupData_bullishData {V : Type} (st : ProTraderState V) :
    (syncSetupData st).bullishData = st.bullishData := by
  unfold syncSetupData
  cases hb : st.bullishData <;> cases hs : st.bearishData <;> simp [hb, hs]

theorem syncSetupData_bearishData {V : Type} (st : ProTraderState V) :
    (syncSetupData st).bearishData = st.bearishData := by
  unfold syncSetupData
  cases hb : st.bullishData <;> cases hs : st.bearishData <;> simp [hb, hs]

theorem syncSetupData_tradeStatus {V : Type} (st : ProTraderState V) :
    (syncSetupData st).tradeStatus = st.tradeStatus := by
  unfold syncSetupData
  cases hb : st.bullishData <;> cases hs : st.bearishData <;> simp [hb, hs]

theorem step_bullishData {V : Type} (st : ProTraderState V) (e : ComponentEvent V) :
    (step st e).bullishData =
      match e with
      | ComponentEvent.fetchSetupSuccess b _ => some b
      | _ => st.bullishData := by
  cases e <;> simp [step, syncSetupData_bullishData]

/-- Claim C10: every enter-trade request submitted through the confirmation
modal carries `trade_direction` `"LONG"`, whatever trader direction the
operator has selected — the modal builds the request body with the
constant string `"LONG"`. -/
theorem c10_trade_direction_always_long (selected : Trader) (form : EntryFormData) :
    (confirmEntryClick form).trade_direction = "LONG" := rfl

/-- Claim C3: in the trade-monitoring view the add-more action is offered
exactly when `position_size = 50`, the partial-exit action exactly when
`position_size = 100`, the close-trade action is always offered and its
request carries the entire current `position_size`; an action that is not
offered has no button, hence is never issued and triggers no network
call. -/
theorem c3_position_size_guards (ts : TradeStatusRecord) (price : ℚ)
    (h : ts.in_trade = true) :
    (TradeAction.addMore ∈ offeredActions ts ↔ ts.position_size = 50) ∧
    (TradeAction.partialTakeProfit ∈ offeredActions ts ↔ ts.position_size = 100) ∧
    TradeAction.closeTrade ∈ offeredActions ts ∧
    (closeTradeClick price ts).position_size = ts.position_size := by
  refine ⟨?_, ?_, ?_, rfl⟩ <;>
    · unfold offeredActions
      split <;> split <;> simp_all

/-- Witness for C3 at a concrete half-position trade status. -/
theorem c3_position_size_guards_witness :
    (⟨true, 50, 4000, 4010, 3990, 4020, 4040, []⟩ : TradeStatusRecord).in_trade = true ∧
    ((TradeAction.addMore ∈ offeredActions ⟨true, 50, 4000, 4010, 3990, 4020, 4040, []⟩ ↔
        (⟨true, 50, 4000, 4010, 3990, 4020, 4040, []⟩ : TradeStatusRecord).position_size = 50) ∧
      (TradeAction.partialTakeProfit ∈ offeredActions ⟨true, 50, 4000, 4010, 3990, 4020, 4040, []⟩ ↔
        (⟨true, 50, 4000, 4010, 3990, 4020, 4040, []⟩ : TradeStatusRecord).position_size = 100) ∧
      TradeAction.closeTrade ∈ offeredActions ⟨true, 50, 4000, 4010, 3990, 4020, 4040, []⟩ ∧
      (closeTradeClick 4010 ⟨true, 50, 4000, 4010, 3990, 4020, 4040, []⟩).position_size =
        (⟨true, 50, 4000, 4010, 3990, 4020, 4040, []⟩ : TradeStatusRecord).position_size) :=
  ⟨rfl, c3_position_size_guards ⟨true, 50, 4000, 4010, 3990, 4020, 4040, []⟩ 4010 rfl⟩

/-- Claim C5, counterexample: the claim says every enter- or exit-trade
submission answered with `success: false` surfaces the backend error text.
A rejected exit-trade produces no alert at all — `exitTrade` has no
branch for `success: false`, so the failure is silently swallowed. -/
theorem c5_counterexample :
    (exitTradeHandleResult ⟨false, "Exit rejected: insufficient margin", 0, 0⟩).alertText
        = none ∧
    exitTradeHandleResult ⟨false, "Exit rejected: insufficient margin", 0, 0⟩
        = ⟨none, false, false, false⟩ := by
  decide

/-- Claim C5, amended: on an enter-trade response with `success: false`
the backend error text is surfaced (prefixed with `Failed to enter
trade: `), the modal stays open, no local state changes and no re-fetch
is triggered; on an exit-trade response with `success: false` nothing is
surfaced and nothing changes — the rejection is silently ignored. -/
theorem c5_failure_handling (re : EnterTradeResult) (rx : ExitTradeResult)
    (he : re.success = false) (hx : rx.success = false) :
    enterTradeHandleResult re =
      { alertText := some ("Failed to enter trade: " ++ jsStringOf re.error)
        closeModal := false, refetchTradeStatus := false, refetchSetup := false } ∧
    exitTradeHandleResult rx =
      { alertText := none, closeModal := false, refetchTradeStatus := false
        refetchSetup := false } := by
  constructor <;> simp [enterTradeHandleResult, exitTradeHandleResult, he, hx]

/-- Witness for the amended C5 at concrete rejected responses. -/
theorem c5_failure_handling_witness :
    (⟨false, some "insufficient margin"⟩ : EnterTradeResult).success = false ∧
    (⟨false, "rejected", 0, 0⟩ : ExitTradeResult).success = false ∧
    (enterTradeHandleResult ⟨false, some "insufficient margin"⟩ =
        { alertText := some ("Failed to enter trade: " ++ jsStringOf (some "insufficient margin"))
          closeModal := false, refetchTradeStatus := false, refetchSetup := false } ∧
      exitTradeHandleResult ⟨false, "rejected", 0, 0⟩ =
        { alertText := none, closeModal := false, refetchTradeStatus := false
          refetchSetup := false }) :=
  ⟨rfl, rfl, c5_failure_handling ⟨false, some "insufficient margin"⟩ ⟨false, "rejected", 0, 0⟩ rfl rfl⟩

/-- Claim C2, counterexample: on the alert list LOW:A, HIGH:B, MEDIUM:C,
HIGH:D the page renders the alerts exactly in arrival order A, B, C, D,
not in the claimed priority order B, D, C, A — a HIGH alert (B) appears
after a LOW alert (A). -/
theorem c2_counterexample :
    ((renderAlerts [⟨"LOW", "A", "", none⟩, ⟨"HIGH", "B", "", none⟩,
        ⟨"MEDIUM", "C", "", none⟩, ⟨"HIGH", "D", "", none⟩]).map
          (fun pr => pr.1.title)) = ["A", "B", "C", "D"] ∧
    ((specPrioritizedAlerts [⟨"LOW", "A", "", none⟩, ⟨"HIGH", "B", "", none⟩,
        ⟨"MEDIUM", "C", "", none⟩, ⟨"HIGH", "D", "", none⟩]).map Alert.title)
      = ["B", "D", "C", "A"] ∧
    (["A", "B", "C", "D"] : List String) ≠ ["B", "D", "C", "A"] := by
  decide

/-- Claim C2, amended: the page renders `TradeStatus.alerts` exactly in
arrival order — no alert is dropped or reordered; the priority field only
selects the styling of each alert box, it never changes positions. -/
theorem c2_alerts_arrival_order (alerts : List Alert) :
    (renderAlerts alerts).map Prod.fst = alerts ∧
    (renderAlerts alerts).length = alerts.length ∧
    ∀ pr ∈ renderAlerts alerts, pr.2 = alertStyle pr.1 := by
  refine ⟨?_, by simp [renderAlerts], ?_⟩
  · simp only [renderAlerts, List.map_map]
    exact List.map_id alerts
  · intro pr hpr
    simp only [renderAlerts, List.mem_map] at hpr
    obtain ⟨a, _, rfl⟩ := hpr
    rfl

/-- Claim C9: the selected trader direction starts as bullish, is never
changed by a poll-success callback (neither setup nor trade-status data
touches the selection), and once `in_trade` is observed true the dual
selector and the setup-plan section are hidden while the trade-monitoring
section is shown. -/
theorem c9_selection_and_in_trade {V : Type} (st other : ProTraderState V)
    (b s : V) (ts : TradeStatusRecord) (h : inTrade st = true) :
    (initialState : ProTraderState V).selectedTrader = Trader.bullish ∧
    (step other (ComponentEvent.fetchSetupSuccess b s)).selectedTrader
      = other.selectedTrader ∧
    (step other (ComponentEvent.fetchTradeStatusSuccess ts)).selectedTrader
      = other.selectedTrader ∧
    (step other (ComponentEvent.fetchSetupFailure "")).selectedTrader
      = other.selectedTrader ∧
    showsDualSelector st = false ∧
    showsTradeMonitoring st = true ∧
    showsSetupPlan st = false := by
  refine ⟨rfl, ?_, rfl, rfl, ?_, ?_, ?_⟩
  · simp [step, syncSetupData_selectedTrader]
  · simp [showsDualSelector, h]
  · cases hts : st.tradeStatus with
    | none => simp [inTrade, hts] at h
    | some ts0 => simp [showsTradeMonitoring, h, hts]
  · simp [showsSetupPlan, h]

/-- Witness for C9 at a concrete in-trade state. -/
theorem c9_selection_and_in_trade_witness :
    inTrade (⟨some 1, some 1, some 2, Trader.bullish,
        some ⟨true, 50, 4000, 4010, 3990, 4020, 4040, []⟩, false, ""⟩ : ProTraderState ℕ)
      = true ∧
    ((initialState : ProTraderState ℕ).selectedTrader = Trader.bullish ∧
      (step (initialState : ProTraderState ℕ)
          (ComponentEvent.fetchSetupSuccess 7 8)).selectedTrader
        = (initialState : ProTraderState ℕ).selectedTrader ∧
      (step (initialState : ProTraderState ℕ)
          (ComponentEvent.fetchTradeStatusSuccess ⟨true, 50, 4000, 4010, 3990, 4020, 4040, []⟩)).selectedTrader
        = (initialState : ProTraderState ℕ).selectedTrader ∧
      (step (initialState : ProTraderState ℕ)
          (ComponentEvent.fetchSetupFailure "")).selectedTrader
        = (initialState : ProTraderState ℕ).selectedTrader ∧
      showsDualSelector (⟨some 1, some 1, some 2, Trader.bullish,
          some ⟨true, 50, 4000, 4010, 3990, 4020, 4040, []⟩, false, ""⟩ : ProTraderState ℕ)
        = false ∧
      showsTradeMonitoring (⟨some 1, some 1, some 2, Trader.bullish,
          some ⟨true, 50, 4000, 4010, 3990, 4020, 4040, []⟩, false, ""⟩ : ProTraderState ℕ)
        = true ∧
      showsSetupPlan (⟨some 1, some 1, some 2, Trader.bullish,
          some ⟨true, 50, 4000, 4010, 3990, 4020, 4040, []⟩, false, ""⟩ : ProTraderState ℕ)
        = false) :=
  ⟨rfl, c9_selection_and_in_trade
    (⟨some 1, some 1, some 2, Trader.bullish,
      some ⟨true, 50, 4000, 4010, 3990, 4020, 4040, []⟩, false, ""⟩ : ProTraderState ℕ)
    initialState 7 8 ⟨true, 50, 4000, 4010, 3990, 4020, 4040, []⟩ rfl⟩

/-- Claim C1, counterexample: dispatch request 0, then request 1; request 1
completes first with bullish payload 20, then the older request 0
completes with bullish payload 10.  The store ends at 10 — the older
dispatch overwrites the newer one, because `fetchSetup` applies every
completion unconditionally; the claimed staleness guard does not exist. -/
theorem c1_counterexample :
    (runTagged (initialState : ProTraderState ℕ)
        [(1, ComponentEvent.fetchSetupSuccess 20 21),
          (0, ComponentEvent.fetchSetupSuccess 10 11)]).bullishData = some 10 ∧
    latestDispatchBullish
        [(1, ComponentEvent.fetchSetupSuccess 20 21),
          ((0 : ℕ), ComponentEvent.fetchSetupSuccess (10 : ℕ) 11)] = some (1, 20) ∧
    some (10 : ℕ) ≠ some 20 := by
  decide

/-- Claim C1, amended: within one polling stream the store always holds the
payload of the most recently **completed** `fetchSetup` request — results
are applied in completion order with no sequence token, so the dispatch
tags are ignored entirely and an older dispatch completing later does
overwrite a newer one. -/
theorem c1_completion_order_wins {V : Type} (st : ProTraderState V)
    (events : List (ℕ × ComponentEvent V)) :
    (runTagged st events).bullishData = completionOrderBullish st.bullishData events ∧
    ∀ retag : ℕ → ℕ,
      runTagged st (events.map (fun e => (retag e.1, e.2))) = runTagged st events := by
  constructor
  · induction events generalizing st with
    | nil => rfl
    | cons e rest ih =>
      cases e with
      | mk tag ev =>
        simp only [runTagged, List.foldl_cons, completionOrderBullish]
        cases ev <;>
          simpa [runTagged, completionOrderBullish, step_bullishData] using
            ih (step st _)
  · intro retag
    induction events generalizing st with
    | nil => rfl
    | cons e rest ih =>
      simp only [List.map_cons, runTagged, List.foldl_cons]
      exact ih (step st e.2)

/-- Claim C4, counterexample: after three successful setup polls, a poll
failing with `HTTP 500` keeps the last payload in the store but the page
renders the full-screen failure view — the last successful Setup is not
visible alongside an error banner, contrary to the claim. -/
theorem c4_counterexample :
    renderTop (run (initialState : ProTraderState ℕ)
        [ComponentEvent.fetchSetupSuccess 1 2, ComponentEvent.fetchSetupSuccess 3 4,
          ComponentEvent.fetchSetupSuccess 7 8, ComponentEvent.fetchSetupFailure "HTTP 500"])
      = TopView.failedToLoad "HTTP 500" ∧
    (run (initialState : ProTraderState ℕ)
        [ComponentEvent.fetchSetupSuccess 1 2, ComponentEvent.fetchSetupSuccess 3 4,
          ComponentEvent.fetchSetupSuccess 7 8, ComponentEvent.fetchSetupFailure "HTTP 500"]).bullishData
      = some 7 ∧
    (run (initialState : ProTraderState ℕ)
        [ComponentEvent.fetchSetupSuccess 1 2, ComponentEvent.fetchSetupSuccess 3 4,
          ComponentEvent.fetchSetupSuccess 7 8, ComponentEvent.fetchSetupFailure "HTTP 500"]).setupData
      = some 7 ∧
    TopView.failedToLoad "HTTP 500" ≠ TopView.dashboard (7 : ℕ) := by
  decide

/-- Claim C4, amended: a failed setup poll records the error string, keeps
the previously fetched payloads (and the derived `setupData`) in memory,
and does not stop the schedule — the next interval tick still runs both
fetches; but the page then shows the full-screen failure view instead of
the stale Setup, so the last successful Setup is retained, not visible. -/
theorem c4_failure_keeps_data_but_hides_it {V : Type} (st : ProTraderState V)
    (msg : String) (n : ℕ) (hmsg : msg ≠ "") :
    (step st (ComponentEvent.fetchSetupFailure msg)).bullishData = st.bullishData ∧
    (step st (ComponentEvent.fetchSetupFailure msg)).bearishData = st.bearishData ∧
    (step st (ComponentEvent.fetchSetupFailure msg)).setupData = st.setupData ∧
    (step st (ComponentEvent.fetchSetupFailure msg)).tradeStatus = st.tradeStatus ∧
    (step st (ComponentEvent.fetchSetupFailure msg)).error = msg ∧
    renderTop (step st (ComponentEvent.fetchSetupFailure msg))
      = TopView.failedToLoad msg ∧
    tickSchedule (n + 1) = tickSchedule n ++ intervalCallback ∧
    FetchKind.fetchSetup ∈ intervalCallback := by
  refine ⟨rfl, rfl, rfl, rfl, rfl, ?_, rfl, by decide⟩
  simp [step, renderTop, hmsg]

/-- Witness for the amended C4 at a concrete post-success state. -/
theorem c4_failure_keeps_data_but_hides_it_witness :
    ("HTTP 500" : String) ≠ "" ∧
    ((step (⟨some 7, some 7, some 8, Trader.bullish, none, false, ""⟩ : ProTraderState ℕ)
          (ComponentEvent.fetchSetupFailure "HTTP 500")).bullishData
        = (⟨some 7, some 7, some 8, Trader.bullish, none, false, ""⟩ : ProTraderState ℕ).bullishData ∧
      (step (⟨some 7, some 7, some 8, Trader.bullish, none, false, ""⟩ : ProTraderState ℕ)
          (ComponentEvent.fetchSetupFailure "HTTP 500")).bearishData
        = (⟨some 7, some 7, some 8, Trader.bullish, none, false, ""⟩ : ProTraderState ℕ).bearishData ∧
      (step (⟨some 7, some 7, some 8, Trader.bullish, none, false, ""⟩ : ProTraderState ℕ)
          (ComponentEvent.fetchSetupFailure "HTTP 500")).setupData
        = (⟨some 7, some 7, some 8, Trader.bullish, none, false, ""⟩ : ProTraderState ℕ).setupData ∧
      (step (⟨some 7, some 7, some 8, Trader.bullish, none, false, ""⟩ : ProTraderState ℕ)
          (ComponentEvent.fetchSetupFailure "HTTP 500")).tradeStatus
        = (⟨some 7, some 7, some 8, Trader.bullish, none, false, ""⟩ : ProTraderState ℕ).tradeStatus ∧
      (step (⟨some 7, some 7, some 8, Trader.bullish, none, false, ""⟩ : ProTraderState ℕ)
          (ComponentEvent.fetchSetupFailure "HTTP 500")).error = "HTTP 500" ∧
      renderTop (step (⟨some 7, some 7, some 8, Trader.bullish, none, false, ""⟩ : ProTraderState ℕ)
          (ComponentEvent.fetchSetupFailure "HTTP 500"))
        = TopView.failedToLoad "HTTP 500" ∧
      tickSchedule (3 + 1) = tickSchedule 3 ++ intervalCallback ∧
      FetchKind.fetchSetup ∈ intervalCallback) :=
  ⟨by decide,
    c4_failure_keeps_data_but_hides_it
      (⟨some 7, some 7, some 8, Trader.bullish, none, false, ""⟩ : ProTraderState ℕ)
      "HTTP 500" 3 (by decide)⟩

/-- Claim C6, counterexample: a string that is already an absolute price,
`"$4050.00"`, is not returned unchanged when an anchor is present — the
code cannot distinguish absolute prices from pip offsets, so it treats
the number as an offset and returns `"$4405.00"`. -/
theorem c6_counterexample :
    convertPipToPrice
        (some [⟨"LIQUIDITY_GRAB", 3, some "Liquidity Grab at H4 support $4000.00!"⟩])
        "$4050.00"
      = Except.ok "$4405.00" ∧
    ("$4405.00" : String) ≠ "$4050.00" := by
  decide

/-- Claim C6, amended: a non-numeric input string (one whose dollar-stripped
form does not parse as a number, the empty string included) is returned
unchanged for every anchor state; but a numeric string is only passed
through when no anchor is available — with an anchor present every
numeric string, absolute prices included, is converted as a pip offset. -/
theorem c6_non_numeric_passthrough (cs : Option (List Confluence)) (s : String)
    (h : parseFloat (jsReplaceDollar s) = none) :
    convertPipToPrice cs s = Except.ok s := by
  by_cases hs : s = ""
  · simp [convertPipToPrice, hs]
  · simp [convertPipToPrice, hs, h]

/-- Witness for the amended C6 on a non-numeric string with an anchor
present. -/
theorem c6_non_numeric_passthrough_witness :
    parseFloat (jsReplaceDollar "Market price") = none ∧
    convertPipToPrice
        (some [⟨"LIQUIDITY_GRAB", 3, some "Liquidity Grab at H4 support $4000.00!"⟩])
        "Market price"
      = Except.ok "Market price" :=
  ⟨by decide,
    c6_non_numeric_passthrough
      (some [⟨"LIQUIDITY_GRAB", 3, some "Liquidity Grab at H4 support $4000.00!"⟩])
      "Market price" (by decide)⟩

/-- Claim C7: converting the offset `"$0.00"` against any extracted anchor
returns the anchor itself formatted to two decimals, and when no
liquidity-grab anchor is extractable every offset string is returned
unchanged. -/
theorem c7_zero_offset_round_trip (cs : Option (List Confluence)) (p : ℚ) (s : String) :
    (getLiquidityGrabLevel cs = Except.ok (some p) →
      convertPipToPrice cs "$0.00" = Except.ok ("$" ++ toFixed2 p)) ∧
    (getLiquidityGrabLevel cs = Except.ok none →
      convertPipToPrice cs s = Except.ok s) := by
  constructor
  · intro h
    have hpf : parseFloat (jsReplaceDollar "$0.00") = some 0 := by decide
    have hne : ¬ ("$0.00" = "") := by decide
    simp only [convertPipToPrice, if_neg hne, hpf, h]
    by_cases hp : p = 0
    · subst hp
      rw [if_pos rfl]
      decide
    · rw [if_neg hp]
      have hzero : p + 0 / 10 = p := by ring
      rw [hzero]
  · intro h
    by_cases hs : s = ""
    · simp [convertPipToPrice, hs]
    · cases hpf : parseFloat (jsReplaceDollar s) with
      | none => simp [convertPipToPrice, hs, hpf]
      | some v => simp [convertPipToPrice, hs, hpf, h]

/-- Witness for C7: a concrete anchor of 4000 and an anchor-less state. -/
theorem c7_zero_offset_round_trip_witness :
    convertPipToPrice
        (some [⟨"LIQUIDITY_GRAB", 3, some "Liquidity Grab at H4 support $4000.00!"⟩])
        "$0.00"
      = Except.ok "$4000.00" ∧
    convertPipToPrice none "$2.00" = Except.ok "$2.00" := by
  constructor
  · have h :=
      (c7_zero_offset_round_trip
        (some [⟨"LIQUIDITY_GRAB", 3, some "Liquidity Grab at H4 support $4000.00!"⟩])
        4000 "$2.00").1 (by decide)
    rw [h]
    decide
  · exact (c7_zero_offset_round_trip none 0 "$2.00").2 (by decide)

/-- Claim C8, counterexample: field access in the render and handler
functions is not total.  Each of the claimed example inputs crashes: a
`LIQUIDITY_GRAB` confluence without a `description` makes
`getLiquidityGrabLevel` call `.match` on the absent field, so the
trade-plan render (which calls `convertPipToPrice`) throws; a signal
without `signal_strength` throws in the strength badge; an
`entry_timing` without its `early_entry`, or an early entry without its
`stop_loss` string, throws in the entry-timing section or its click
handler. -/
theorem c8_counterexample :
    getLiquidityGrabLevel (some [⟨"LIQUIDITY_GRAB", 4, none⟩])
      = Except.error JsError.typeError ∧
    convertPipToPrice (some [⟨"LIQUIDITY_GRAB", 4, none⟩]) "$2.00"
      = Except.error JsError.typeError ∧
    signalStrengthBadge none = Except.error JsError.typeError ∧
    entryTimingEarlyAvailable none = Except.error JsError.typeError ∧
    earlyEntryStopLossParse ⟨true, none⟩ = Except.error JsError.typeError := by
  decide

/-- Claim C8, amended: rendering is not total on absent optional fields —
the unguarded accesses of `c8_counterexample` each crash.  Of the cited
helpers, `getLiquidityGrabLevel` and `convertPipToPrice` specifically
terminate normally whenever every `LIQUIDITY_GRAB` confluence carries a
description; this theorem states only that helper-level guarantee, not
totality of the page render. -/
theorem c8_total_when_descriptions_present (cs : List Confluence) (s : String)
    (h : (cs.all fun c => !(c.type = "LIQUIDITY_GRAB") || c.description.isSome) = true) :
    jsOk (getLiquidityGrabLevel (some cs)) = true ∧
    jsOk (convertPipToPrice (some cs) s) = true := by
  have hok : jsOk (getLiquidityGrabLevel (some cs)) = true := by
    unfold getLiquidityGrabLevel
    cases hf : cs.find? (fun c => c.type = "LIQUIDITY_GRAB") with
    | none => simp [hf, jsOk]
    | some lg =>
      have hmem : lg ∈ cs := List.mem_of_find?_eq_some hf
      have hfound := List.find?_some hf
      have htype : lg.type = "LIQUIDITY_GRAB" := of_decide_eq_true hfound
      have hdesc := (List.all_eq_true.mp h) lg hmem
      rw [htype] at hdesc
      simp only [decide_True, Bool.not_true, Bool.false_or] at hdesc
      cases hd : lg.description with
      | none => rw [hd] at hdesc; simp at hdesc
      | some d => simp [hf, hd, jsOk]
  refine ⟨hok, ?_⟩
  cases hglgl : getLiquidityGrabLevel (some cs) with
  | error e => rw [hglgl] at hok; simp [jsOk] at hok
  | ok v =>
    by_cases hs : s = ""
    · simp [convertPipToPrice, hs, jsOk]
    · cases hpf : parseFloat (jsReplaceDollar s) with
      | none => simp [convertPipToPrice, hs, hpf, jsOk]
      | some w =>
        cases v with
        | none => simp [convertPipToPrice, hs, hpf, hglgl, jsOk]
        | some bp =>
          by_cases hbp : bp = 0
          · simp [convertPipToPrice, hs, hpf, hglgl, hbp, jsOk]
          · simp [convertPipToPrice, hs, hpf, hglgl, hbp, jsOk]

/-- Witness for the amended C8 on a confluence list whose liquidity grab
carries a description. -/
theorem c8_total_when_descriptions_present_witness :
    (([⟨"FVG", 2, none⟩,
        ⟨"LIQUIDITY_GRAB", 3, some "Liquidity Grab at H4 support $4000.00!"⟩] :
          List Confluence).all
        fun c => !(c.type = "LIQUIDITY_GRAB") || c.description.isSome) = true ∧
    (jsOk (getLiquidityGrabLevel (some [⟨"FVG", 2, none⟩,
        ⟨"LIQUIDITY_GRAB", 3, some "Liquidity Grab at H4 support $4000.00!"⟩])) = true ∧
      jsOk (convertPipToPrice (some [⟨"FVG", 2, none⟩,
        ⟨"LIQUIDITY_GRAB", 3, some "Liquidity Grab at H4 support $4000.00!"⟩]) "$2.00") = true) :=
  ⟨by decide,
    c8_total_when_descriptions_present
      [⟨"FVG", 2, none⟩, ⟨"LIQUIDITY_GRAB", 3, some "Liquidity Grab at H4 support $4000.00!"⟩]
      "$2.00" (by decide)⟩
